import Mathlib

/-!
Shallow embedding of `src/useLocalStorageState.ts` from
react-use-local-storage-state.

The store (browser `localStorage`) is a key/value map `String → Option String`
together with a trace of every attempted store operation (`getItem`,
`setItem`, `removeItem`), so that "the store was never invoked" and
"this binding only mutates slot k" are statable.

A `Behavior` captures the execution environment at one render:
whether `window` exists, and whether `setItem` / `removeItem` throw
(quota exceeded, storage revoked, ...).  The spec's store contract gives
`get` as total (`string | absent`), so `getItem` never throws here; the
`try`/`catch` around the read then catches exactly `JSON.parse` failures.

Serialization (`JSON.stringify` / `JSON.parse`) is an external collaborator,
modelled as a `Codec`: `encode` returns `none` when `JSON.stringify` would
throw, `decode` returns `none` when `JSON.parse` would throw.

React semantics embedded:
  * mount: the hook body runs (`persistent` is computed, which runs the
    availability probe), `useState` runs its lazy initializer
    `getStoredValue`, then the effect runs and writes the state back.
  * a setter invocation: the new state is computed from the action, the
    component re-renders, the hook body runs again (so `persistent` is
    recomputed and the probe re-runs), `useState` ignores its initializer,
    and the effect re-runs (its dependency `state` changed) writing the new
    state.  React's bail-out for a set to an identical value is not
    modelled; every claim below is exercised on value-changing sets.
-/

structure Behavior where
  hasWindow : Bool
  setFails : Bool
  removeFails : Bool
deriving Repr, DecidableEq

inductive StoreOp where
  | get : String → StoreOp
  | set : String → String → StoreOp
  | remove : String → StoreOp
deriving Repr, DecidableEq

/-- Key an operation addresses. -/
def StoreOp.opKey : StoreOp → String
  | .get k => k
  | .set k _ => k
  | .remove k => k

structure StoreState where
  data : String → Option String
  trace : List StoreOp

/-- Probe key used by `isLocalStorageAvailable` (`const testKey = "__test__"`). -/
def testKey : String := "__test__"

/-- One `localStorage.setItem(k, v)` call: recorded in the trace; on failure
(throw) the data is unchanged and `false` is returned. -/
def doSet (b : Behavior) (s : StoreState) (k v : String) : Bool × StoreState :=
  if b.setFails then
    (false, { s with trace := s.trace ++ [StoreOp.set k v] })
  else
    (true, { data := fun x => if x = k then some v else s.data x,
             trace := s.trace ++ [StoreOp.set k v] })

/-- One `localStorage.removeItem(k)` call. -/
def doRemove (b : Behavior) (s : StoreState) (k : String) : Bool × StoreState :=
  if b.removeFails then
    (false, { s with trace := s.trace ++ [StoreOp.remove k] })
  else
    (true, { data := fun x => if x = k then none else s.data x,
             trace := s.trace ++ [StoreOp.remove k] })

/-- One `localStorage.getItem(k)` call (total per the store contract). -/
def doGet (s : StoreState) (k : String) : Option String × StoreState :=
  (s.data k, { s with trace := s.trace ++ [StoreOp.get k] })

/-- Embeds `isLocalStorageAvailable`: try a probe `setItem`/`removeItem` on
`"__test__"`; `true` if both succeed, `false` if either throws. -/
def isLocalStorageAvailable (b : Behavior) (s : StoreState) : Bool × StoreState :=
  let r1 := doSet b s testKey "1"
  if r1.1 then
    let r2 := doRemove b r1.2 testKey
    if r2.1 then (true, r2.2) else (false, r2.2)
  else (false, r1.2)

/-- Embeds `typeof window !== "undefined" && isLocalStorageAvailable()`,
evaluated in the hook body on every render. -/
def computePersistent (b : Behavior) (s : StoreState) : Bool × StoreState :=
  if b.hasWindow then isLocalStorageAvailable b s else (false, s)

structure Codec (T : Type) where
  encode : T → Option String
  decode : String → Option T

/-- The `initialValue : T | (() => T)` parameter as a tagged variant. -/
inductive Fallback (T : Type) where
  | literal : T → Fallback T
  | producer : (Unit → T) → Fallback T

/-- Embeds `typeof initialValue === "function" ? initialValue() : initialValue`. -/
def resolveFallback : Fallback T → T
  | .literal v => v
  | .producer f => f ()

/-- Argument of the returned setter: `T | ((prev: T) => T)`. -/
inductive SetStateAction (T : Type) where
  | value : T → SetStateAction T
  | updater : (T → T) → SetStateAction T

/-- How React's `setState` computes the next state from the action. -/
def applyAction : SetStateAction T → T → T
  | .value v, _ => v
  | .updater f, prev => f prev

/-- Embeds `getStoredValue`: if not persistent, the fallback; otherwise read
the entry at `key`; a present entry that decodes wins; a decode failure is
caught, `console.error` is called (the returned `Bool` is `true` exactly when
that diagnostic fires) and the fallback is used; an absent entry falls back
silently. -/
def getStoredValue (c : Codec T) (persistent : Bool) (key : String)
    (init : Fallback T) (s : StoreState) : T × Bool × StoreState :=
  if persistent then
    let r := doGet s key
    match r.1 with
    | some item =>
      match c.decode item with
      | some v => (v, false, r.2)
      | none => (resolveFallback init, true, r.2)
    | none => (resolveFallback init, false, r.2)
  else (resolveFallback init, false, s)

/-- Embeds the `useEffect` body: when `persistent`, try to
`setItem(key, JSON.stringify(state))`; a `JSON.stringify` throw or a
`setItem` throw is caught and ignored. -/
def runWriteEffect (c : Codec T) (b : Behavior) (persistent : Bool)
    (key : String) (st : T) (s : StoreState) : StoreState :=
  if persistent then
    match c.encode st with
    | some str => (doSet b s key str).2
    | none => s
  else s

/-- The binding as the consumer sees it after a committed render:
the key it is bound to, the `isPersistent` flag of that render, and the
current in-memory state. -/
structure Hook (T : Type) where
  key : String
  persistent : Bool
  state : T

structure MountResult (T : Type) where
  hook : Hook T
  store : StoreState
  diag : Bool

/-- Embeds a full mount of `useLocalStorageState key initialValue`:
compute `persistent` (running the probe), run the `useState` lazy
initializer `getStoredValue`, then run the write-back effect. -/
def useLocalStorageState (c : Codec T) (b : Behavior) (key : String)
    (init : Fallback T) (s : StoreState) : MountResult T :=
  let pr := computePersistent b s
  let gv := getStoredValue c pr.1 key init pr.2
  let s2 := runWriteEffect c b pr.1 key gv.1 gv.2.2
  { hook := { key := key, persistent := pr.1, state := gv.1 },
    store := s2, diag := gv.2.1 }

/-- Embeds one setter invocation on a mounted binding: compute the new state
from the action, re-render (the hook body recomputes `persistent`, re-running
the probe against the environment `b` current at that render), and re-run the
write effect with the new state. -/
def setValue (c : Codec T) (b : Behavior) (h : Hook T)
    (a : SetStateAction T) (s : StoreState) : Hook T × StoreState :=
  let v := applyAction a h.state
  let pr := computePersistent b s
  let s2 := runWriteEffect c b pr.1 h.key v pr.2
  ({ key := h.key, persistent := pr.1, state := v }, s2)

/-- Embeds `createLocalStorageStateHook`: fixes `key` and `initialValue` and
returns a zero-argument accessor that delegates to `useLocalStorageState`
(the `Behavior` and `StoreState` arguments stand for the ambient render
environment the real zero-argument hook reads implicitly). -/
def createLocalStorageStateHook (c : Codec T) (key : String)
    (init : Fallback T) : Unit → Behavior → StoreState → MountResult T :=
  fun _ b s => useLocalStorageState c b key init s

/-- A sequence of setter invocations, each under its own render environment. -/
def runSetters (c : Codec T) :
    List (Behavior × SetStateAction T) → Hook T → StoreState → Hook T × StoreState
  | [], h, s => (h, s)
  | step :: rest, h, s =>
    let r := setValue c step.1 h step.2 s
    runSetters c rest r.1 r.2

/-! Concrete instances used by witnesses and counterexamples. -/

/-- Parses a nonempty all-digit string, most significant digit first. -/
def digitsToNat : List Char → Nat → Option Nat
  | [], acc => some acc
  | ch :: rest, acc =>
    if '0' ≤ ch ∧ ch ≤ '9' then
      digitsToNat rest (acc * 10 + (ch.toNat - '0'.toNat))
    else none

/-- Decodes decimal text to a natural number; `none` on any non-digit. -/
def natDecode (s : String) : Option Nat :=
  match s.data with
  | [] => none
  | l => digitsToNat l 0

/-- Encodes a natural number as decimal text; total. -/
def natEncode (n : Nat) : Option String := some (toString n)

/-- A lossless textual codec for `Nat`, standing in for JSON on numbers. -/
def natCodec : Codec Nat := { encode := natEncode, decode := natDecode }

/-- A codec whose `decode` always throws: every stored entry is undecodable. -/
def natCodecBadDecode : Codec Nat :=
  { encode := natEncode, decode := fun _ => none }

/-- A codec whose `encode` always throws (as `JSON.stringify` does on
circular values). -/
def natCodecBadEncode : Codec Nat :=
  { encode := fun _ => none, decode := natDecode }

/-- A store with no entries and an empty call trace. -/
def emptyStore : StoreState := { data := fun _ => none, trace := [] }

/-- A fully working browser environment. -/
def bOK : Behavior := { hasWindow := true, setFails := false, removeFails := false }

/-- An environment where every `setItem` throws (quota exceeded / revoked). -/
def bSetFail : Behavior := { hasWindow := true, setFails := true, removeFails := false }

/-- An environment where `removeItem` throws. -/
def bRemoveFail : Behavior := { hasWindow := true, setFails := false, removeFails := true }

/-- A server-side environment: no `window` at all. -/
def bNoWin : Behavior := { hasWindow := false, setFails := false, removeFails := false }

/-- A store whose only entry is `"old"` under the probe key `"__test__"`. -/
def probeSlotStore : StoreState :=
  { data := fun x => if x = testKey then some "old" else none, trace := [] }


/-! Frame and trace lemmas for the store primitives. -/

theorem doSet_data_ne (b : Behavior) (s : StoreState) (k v x : String)
    (hx : x ≠ k) : ((doSet b s k v).2).data x = s.data x := by
  unfold doSet
  split <;> simp [hx]

theorem doRemove_data_ne (b : Behavior) (s : StoreState) (k x : String)
    (hx : x ≠ k) : ((doRemove b s k).2).data x = s.data x := by
  unfold doRemove
  split <;> simp [hx]

theorem doSet_trace (b : Behavior) (s : StoreState) (k v : String) :
    ((doSet b s k v).2).trace = s.trace ++ [StoreOp.set k v] := by
  unfold doSet
  split <;> rfl

theorem doRemove_trace (b : Behavior) (s : StoreState) (k : String) :
    ((doRemove b s k).2).trace = s.trace ++ [StoreOp.remove k] := by
  unfold doRemove
  split <;> rfl

/-! Lemmas about the availability computation. -/

theorem computePersistent_fst (b : Behavior) (s : StoreState) :
    (computePersistent b s).1 = (b.hasWindow && (!b.setFails && !b.removeFails)) := by
  obtain ⟨w, sf, rf⟩ := b
  cases w <;> cases sf <;> cases rf <;> rfl

theorem computePersistent_fst_indep (b : Behavior) (s s2 : StoreState) :
    (computePersistent b s).1 = (computePersistent b s2).1 := by
  rw [computePersistent_fst, computePersistent_fst]

theorem computePersistent_data_ne (b : Behavior) (s : StoreState) (x : String)
    (hx : x ≠ testKey) : ((computePersistent b s).2).data x = s.data x := by
  obtain ⟨w, sf, rf⟩ := b
  cases w <;> cases sf <;> cases rf <;>
    simp [computePersistent, isLocalStorageAvailable, doSet, doRemove, hx]

theorem computePersistent_trace (b : Behavior) (s : StoreState) (op : StoreOp)
    (hop : op ∈ ((computePersistent b s).2).trace) :
    op ∈ s.trace ∨ op.opKey = testKey := by
  obtain ⟨w, sf, rf⟩ := b
  cases w <;> cases sf <;> cases rf <;>
    simp [computePersistent, isLocalStorageAvailable, doSet, doRemove] at hop
  all_goals try exact Or.inl hop
  all_goals refine hop.imp id fun h => ?_
  all_goals rcases h with rfl | rfl <;> rfl

theorem computePersistent_setFails_data (b : Behavior) (s : StoreState)
    (hb : b.setFails = true) : ((computePersistent b s).2).data = s.data := by
  obtain ⟨w, sf, rf⟩ := b
  subst hb
  cases w <;> cases rf <;> rfl

theorem computePersistent_noWindow (b : Behavior) (s : StoreState)
    (hw : b.hasWindow = false) : computePersistent b s = (false, s) := by
  unfold computePersistent
  rw [hw]
  rfl

/-! Lemmas about the read (`useState` lazy initializer). -/

theorem getStoredValue_data (c : Codec T) (p : Bool) (key : String)
    (init : Fallback T) (s : StoreState) :
    ((getStoredValue c p key init s).2.2).data = s.data := by
  cases p
  · rfl
  · rcases hd : s.data key with _ | item
    · simp [getStoredValue, doGet, hd]
    · rcases hc : c.decode item with _ | v <;> simp [getStoredValue, doGet, hd, hc]

theorem getStoredValue_trace (c : Codec T) (p : Bool) (key : String)
    (init : Fallback T) (s : StoreState) (op : StoreOp)
    (hop : op ∈ ((getStoredValue c p key init s).2.2).trace) :
    op ∈ s.trace ∨ op.opKey = key := by
  cases p
  · exact Or.inl hop
  · have hmem : op ∈ s.trace ++ [StoreOp.get key] := by
      rcases hd : s.data key with _ | item
      · simpa [getStoredValue, doGet, hd] using hop
      · rcases hc : c.decode item with _ | v <;>
          simpa [getStoredValue, doGet, hd, hc] using hop
    rcases List.mem_append.mp hmem with h | h
    · exact Or.inl h
    · rcases List.mem_singleton.mp h with rfl
      exact Or.inr rfl

theorem getStoredValue_false (c : Codec T) (key : String)
    (init : Fallback T) (s : StoreState) :
    getStoredValue c false key init s = (resolveFallback init, false, s) := rfl

/-! Lemmas about the write-back effect. -/

theorem runWriteEffect_data_ne (c : Codec T) (b : Behavior) (p : Bool)
    (key : String) (st : T) (s : StoreState) (x : String) (hx : x ≠ key) :
    (runWriteEffect c b p key st s).data x = s.data x := by
  unfold runWriteEffect
  split
  · split
    · exact doSet_data_ne b s key _ x hx
    · rfl
  · rfl

theorem runWriteEffect_trace (c : Codec T) (b : Behavior) (p : Bool)
    (key : String) (st : T) (s : StoreState) (op : StoreOp)
    (hop : op ∈ (runWriteEffect c b p key st s).trace) :
    op ∈ s.trace ∨ op.opKey = key := by
  unfold runWriteEffect at hop
  split at hop
  · split at hop
    · rw [doSet_trace] at hop
      rcases List.mem_append.mp hop with h | h
      · exact Or.inl h
      · rcases List.mem_singleton.mp h with rfl
        exact Or.inr rfl
    · exact Or.inl hop
  · exact Or.inl hop

theorem runWriteEffect_false (c : Codec T) (b : Behavior) (key : String)
    (st : T) (s : StoreState) : runWriteEffect c b false key st s = s := rfl

theorem runWriteEffect_true_encode (c : Codec T) (b : Behavior) (key : String)
    (st : T) (s : StoreState) (str : String) (hset : b.setFails = false)
    (he : c.encode st = some str) :
    (runWriteEffect c b true key st s).data key = some str := by
  unfold runWriteEffect
  rw [he]
  unfold doSet
  rw [hset]
  simp

theorem runWriteEffect_badEncode (c : Codec T) (b : Behavior) (p : Bool)
    (key : String) (st : T) (s : StoreState) (he : c.encode st = none) :
    runWriteEffect c b p key st s = s := by
  unfold runWriteEffect
  rw [he]
  split <;> rfl

/-! Unfolding equations for a mount and for a setter invocation. -/

theorem useLocalStorageState_persistent (c : Codec T) (b : Behavior)
    (key : String) (init : Fallback T) (s : StoreState) :
    (useLocalStorageState c b key init s).hook.persistent = (computePersistent b s).1 := rfl

theorem useLocalStorageState_key (c : Codec T) (b : Behavior)
    (key : String) (init : Fallback T) (s : StoreState) :
    (useLocalStorageState c b key init s).hook.key = key := rfl

theorem useLocalStorageState_state_eq (c : Codec T) (b : Behavior)
    (key : String) (init : Fallback T) (s : StoreState) :
    (useLocalStorageState c b key init s).hook.state
      = (getStoredValue c (computePersistent b s).1 key init (computePersistent b s).2).1 := rfl

theorem useLocalStorageState_diag_eq (c : Codec T) (b : Behavior)
    (key : String) (init : Fallback T) (s : StoreState) :
    (useLocalStorageState c b key init s).diag
      = (getStoredValue c (computePersistent b s).1 key init (computePersistent b s).2).2.1 := rfl

theorem useLocalStorageState_store_eq (c : Codec T) (b : Behavior)
    (key : String) (init : Fallback T) (s : StoreState) :
    (useLocalStorageState c b key init s).store
      = runWriteEffect c b (computePersistent b s).1 key
          (getStoredValue c (computePersistent b s).1 key init (computePersistent b s).2).1
          (getStoredValue c (computePersistent b s).1 key init (computePersistent b s).2).2.2 := rfl

theorem setValue_state (c : Codec T) (b : Behavior) (h : Hook T)
    (a : SetStateAction T) (s : StoreState) :
    ((setValue c b h a s).1).state = applyAction a h.state := rfl

theorem setValue_key (c : Codec T) (b : Behavior) (h : Hook T)
    (a : SetStateAction T) (s : StoreState) :
    ((setValue c b h a s).1).key = h.key := rfl

theorem setValue_persistent (c : Codec T) (b : Behavior) (h : Hook T)
    (a : SetStateAction T) (s : StoreState) :
    ((setValue c b h a s).1).persistent = (computePersistent b s).1 := rfl

theorem setValue_store_eq (c : Codec T) (b : Behavior) (h : Hook T)
    (a : SetStateAction T) (s : StoreState) :
    (setValue c b h a s).2
      = runWriteEffect c b (computePersistent b s).1 h.key
          (applyAction a h.state) (computePersistent b s).2 := rfl

/-! Frame and trace lemmas for a mount. -/

theorem useLocalStorageState_data_ne (c : Codec T) (b : Behavior)
    (key : String) (init : Fallback T) (s : StoreState) (x : String)
    (hk : x ≠ key) (ht : x ≠ testKey) :
    ((useLocalStorageState c b key init s).store).data x = s.data x := by
  rw [useLocalStorageState_store_eq]
  rw [runWriteEffect_data_ne _ _ _ _ _ _ _ hk]
  rw [congrFun (getStoredValue_data c (computePersistent b s).1 key init (computePersistent b s).2) x]
  exact computePersistent_data_ne b s x ht

theorem useLocalStorageState_trace (c : Codec T) (b : Behavior)
    (key : String) (init : Fallback T) (s : StoreState) (op : StoreOp)
    (hop : op ∈ ((useLocalStorageState c b key init s).store).trace) :
    op ∈ s.trace ∨ op.opKey = key ∨ op.opKey = testKey := by
  rw [useLocalStorageState_store_eq] at hop
  rcases runWriteEffect_trace _ _ _ _ _ _ _ hop with h | h
  · rcases getStoredValue_trace _ _ _ _ _ _ h with h2 | h2
    · rcases computePersistent_trace _ _ _ h2 with h3 | h3
      · exact Or.inl h3
      · exact Or.inr (Or.inr h3)
    · exact Or.inr (Or.inl h2)
  · exact Or.inr (Or.inl h)

/-! Behavior of a mount when the availability check failed. -/

theorem useLocalStorageState_state_nonpersistent (c : Codec T) (b : Behavior)
    (key : String) (init : Fallback T) (s : StoreState)
    (hp : (computePersistent b s).1 = false) :
    (useLocalStorageState c b key init s).hook.state = resolveFallback init := by
  rw [useLocalStorageState_state_eq, hp, getStoredValue_false]

theorem useLocalStorageState_data_nonpersistent (c : Codec T) (b : Behavior)
    (key : String) (init : Fallback T) (s : StoreState)
    (hp : (computePersistent b s).1 = false) (x : String) (ht : x ≠ testKey) :
    ((useLocalStorageState c b key init s).store).data x = s.data x := by
  rw [useLocalStorageState_store_eq, hp, runWriteEffect_false, getStoredValue_false]
  exact computePersistent_data_ne b s x ht

theorem useLocalStorageState_trace_nonpersistent (c : Codec T) (b : Behavior)
    (key : String) (init : Fallback T) (s : StoreState)
    (hp : (computePersistent b s).1 = false) (op : StoreOp)
    (hop : op ∈ ((useLocalStorageState c b key init s).store).trace) :
    op ∈ s.trace ∨ op.opKey = testKey := by
  rw [useLocalStorageState_store_eq, hp, runWriteEffect_false, getStoredValue_false] at hop
  exact computePersistent_trace b s op hop

theorem useLocalStorageState_store_noWindow (c : Codec T) (b : Behavior)
    (key : String) (init : Fallback T) (s : StoreState)
    (hw : b.hasWindow = false) :
    (useLocalStorageState c b key init s).store = s := by
  rw [useLocalStorageState_store_eq, computePersistent_noWindow b s hw]
  rfl

/-! Behavior of a setter invocation under failures. -/

theorem setValue_data_ne (c : Codec T) (b : Behavior) (h : Hook T)
    (a : SetStateAction T) (s : StoreState) (x : String)
    (hk : x ≠ h.key) (ht : x ≠ testKey) :
    ((setValue c b h a s).2).data x = s.data x := by
  rw [setValue_store_eq]
  rw [runWriteEffect_data_ne _ _ _ _ _ _ _ hk]
  exact computePersistent_data_ne b s x ht

theorem setValue_trace (c : Codec T) (b : Behavior) (h : Hook T)
    (a : SetStateAction T) (s : StoreState) (op : StoreOp)
    (hop : op ∈ ((setValue c b h a s).2).trace) :
    op ∈ s.trace ∨ op.opKey = h.key ∨ op.opKey = testKey := by
  rw [setValue_store_eq] at hop
  rcases runWriteEffect_trace _ _ _ _ _ _ _ hop with h1 | h1
  · rcases computePersistent_trace _ _ _ h1 with h2 | h2
    · exact Or.inl h2
    · exact Or.inr (Or.inr h2)
  · exact Or.inr (Or.inl h1)

theorem setValue_data_nonpersistent (c : Codec T) (b : Behavior) (h : Hook T)
    (a : SetStateAction T) (s : StoreState)
    (hp : (computePersistent b s).1 = false) (x : String) (ht : x ≠ testKey) :
    ((setValue c b h a s).2).data x = s.data x := by
  rw [setValue_store_eq, hp, runWriteEffect_false]
  exact computePersistent_data_ne b s x ht

theorem setValue_trace_nonpersistent (c : Codec T) (b : Behavior) (h : Hook T)
    (a : SetStateAction T) (s : StoreState)
    (hp : (computePersistent b s).1 = false) (op : StoreOp)
    (hop : op ∈ ((setValue c b h a s).2).trace) :
    op ∈ s.trace ∨ op.opKey = testKey := by
  rw [setValue_store_eq, hp, runWriteEffect_false] at hop
  exact computePersistent_trace b s op hop

theorem setValue_store_noWindow (c : Codec T) (b : Behavior) (h : Hook T)
    (a : SetStateAction T) (s : StoreState) (hw : b.hasWindow = false) :
    (setValue c b h a s).2 = s := by
  rw [setValue_store_eq, computePersistent_noWindow b s hw]
  rfl

theorem setValue_store_setFails_data (c : Codec T) (b : Behavior) (h : Hook T)
    (a : SetStateAction T) (s : StoreState) (hb : b.setFails = true) :
    ((setValue c b h a s).2).data = s.data := by
  have hp : (computePersistent b s).1 = false := by
    rw [computePersistent_fst, hb]
    simp
  rw [setValue_store_eq, hp, runWriteEffect_false]
  exact computePersistent_setFails_data b s hb

theorem setValue_store_badEncode (c : Codec T) (b : Behavior) (h : Hook T)
    (a : SetStateAction T) (s : StoreState)
    (he : ∀ t, c.encode t = none) (x : String) (ht : x ≠ testKey) :
    ((setValue c b h a s).2).data x = s.data x := by
  rw [setValue_store_eq, runWriteEffect_badEncode _ _ _ _ _ _ (he _)]
  exact computePersistent_data_ne b s x ht

/-! Lemmas about a whole sequence of setter invocations. -/

theorem runSetters_key (c : Codec T) (steps : List (Behavior × SetStateAction T)) :
    ∀ (h : Hook T) (s : StoreState), ((runSetters c steps h s).1).key = h.key := by
  induction steps with
  | nil => intro h s; rfl
  | cons step rest ih =>
    intro h s
    calc ((runSetters c (step :: rest) h s).1).key
        = ((runSetters c rest (setValue c step.1 h step.2 s).1
            (setValue c step.1 h step.2 s).2).1).key := rfl
      _ = ((setValue c step.1 h step.2 s).1).key := ih _ _
      _ = h.key := rfl

theorem runSetters_state (c : Codec T) (steps : List (Behavior × SetStateAction T)) :
    ∀ (h : Hook T) (s : StoreState),
      ((runSetters c steps h s).1).state
        = steps.foldl (fun st step => applyAction step.2 st) h.state := by
  induction steps with
  | nil => intro h s; rfl
  | cons step rest ih =>
    intro h s
    calc ((runSetters c (step :: rest) h s).1).state
        = ((runSetters c rest (setValue c step.1 h step.2 s).1
            (setValue c step.1 h step.2 s).2).1).state := rfl
      _ = rest.foldl (fun st step => applyAction step.2 st)
            (applyAction step.2 h.state) := ih _ _
      _ = (step :: rest).foldl (fun st step => applyAction step.2 st) h.state := rfl

theorem runSetters_data_ne (c : Codec T) (steps : List (Behavior × SetStateAction T))
    (x : String) (ht : x ≠ testKey) :
    ∀ (h : Hook T) (s : StoreState), x ≠ h.key →
      ((runSetters c steps h s).2).data x = s.data x := by
  induction steps with
  | nil => intro h s _; rfl
  | cons step rest ih =>
    intro h s hk
    calc ((runSetters c (step :: rest) h s).2).data x
        = ((runSetters c rest (setValue c step.1 h step.2 s).1
            (setValue c step.1 h step.2 s).2).2).data x := rfl
      _ = ((setValue c step.1 h step.2 s).2).data x := ih _ _ hk
      _ = s.data x := setValue_data_ne c step.1 h step.2 s x hk ht

theorem runSetters_trace (c : Codec T) (steps : List (Behavior × SetStateAction T))
    (op : StoreOp) :
    ∀ (h : Hook T) (s : StoreState), op ∈ ((runSetters c steps h s).2).trace →
      op ∈ s.trace ∨ op.opKey = h.key ∨ op.opKey = testKey := by
  induction steps with
  | nil => intro h s hop; exact Or.inl hop
  | cons step rest ih =>
    intro h s hop
    have hop2 : op ∈ ((runSetters c rest (setValue c step.1 h step.2 s).1
        (setValue c step.1 h step.2 s).2).2).trace := hop
    rcases ih _ _ hop2 with h1 | h1 | h1
    · exact setValue_trace c step.1 h step.2 s op h1
    · exact Or.inr (Or.inl h1)
    · exact Or.inr (Or.inr h1)

theorem runSetters_persistent_const (c : Codec T) (b : Behavior)
    (steps : List (Behavior × SetStateAction T)) :
    (∀ p ∈ steps, p.1 = b) → ∀ (h : Hook T) (s : StoreState),
      h.persistent = (b.hasWindow && (!b.setFails && !b.removeFails)) →
      ((runSetters c steps h s).1).persistent = h.persistent := by
  induction steps with
  | nil => intro _ h s _; rfl
  | cons step rest ih =>
    intro hb h s hh
    have hstep : step.1 = b := hb step (List.mem_cons_self _ _)
    have hnew : ((setValue c step.1 h step.2 s).1).persistent
        = (b.hasWindow && (!b.setFails && !b.removeFails)) := by
      rw [setValue_persistent, computePersistent_fst, hstep]
    have hrest : ∀ p ∈ rest, p.1 = b := fun p hp => hb p (List.mem_cons_of_mem _ hp)
    calc ((runSetters c (step :: rest) h s).1).persistent
        = ((runSetters c rest (setValue c step.1 h step.2 s).1
            (setValue c step.1 h step.2 s).2).1).persistent := rfl
      _ = ((setValue c step.1 h step.2 s).1).persistent := ih hrest _ _ hnew
      _ = h.persistent := by rw [hnew, hh]

theorem runSetters_nonpersistent_data (c : Codec T)
    (steps : List (Behavior × SetStateAction T)) (x : String) (ht : x ≠ testKey) :
    (∀ p ∈ steps, (p.1.hasWindow && (!p.1.setFails && !p.1.removeFails)) = false) →
    ∀ (h : Hook T) (s : StoreState), ((runSetters c steps h s).2).data x = s.data x := by
  induction steps with
  | nil => intro _ h s; rfl
  | cons step rest ih =>
    intro hb h s
    have hstep : (computePersistent step.1 s).1 = false := by
      rw [computePersistent_fst]
      exact hb step (List.mem_cons_self _ _)
    have hrest := fun p hp => hb p (List.mem_cons_of_mem _ hp)
    calc ((runSetters c (step :: rest) h s).2).data x
        = ((runSetters c rest (setValue c step.1 h step.2 s).1
            (setValue c step.1 h step.2 s).2).2).data x := rfl
      _ = ((setValue c step.1 h step.2 s).2).data x := ih hrest _ _
      _ = s.data x := setValue_data_nonpersistent c step.1 h step.2 s hstep x ht

theorem runSetters_nonpersistent_trace (c : Codec T)
    (steps : List (Behavior × SetStateAction T)) (op : StoreOp) :
    (∀ p ∈ steps, (p.1.hasWindow && (!p.1.setFails && !p.1.removeFails)) = false) →
    ∀ (h : Hook T) (s : StoreState), op ∈ ((runSetters c steps h s).2).trace →
      op ∈ s.trace ∨ op.opKey = testKey := by
  induction steps with
  | nil => intro _ h s hop; exact Or.inl hop
  | cons step rest ih =>
    intro hb h s hop
    have hstep : (computePersistent step.1 s).1 = false := by
      rw [computePersistent_fst]
      exact hb step (List.mem_cons_self _ _)
    have hrest := fun p hp => hb p (List.mem_cons_of_mem _ hp)
    have hop2 : op ∈ ((runSetters c rest (setValue c step.1 h step.2 s).1
        (setValue c step.1 h step.2 s).2).2).trace := hop
    rcases ih hrest _ _ hop2 with h1 | h1
    · exact setValue_trace_nonpersistent c step.1 h step.2 s hstep op h1
    · exact Or.inr h1

theorem runSetters_noWindow_store (c : Codec T)
    (steps : List (Behavior × SetStateAction T)) :
    (∀ p ∈ steps, p.1.hasWindow = false) →
    ∀ (h : Hook T) (s : StoreState), (runSetters c steps h s).2 = s := by
  induction steps with
  | nil => intro _ h s; rfl
  | cons step rest ih =>
    intro hb h s
    have hstep : step.1.hasWindow = false := hb step (List.mem_cons_self _ _)
    have hrest := fun p hp => hb p (List.mem_cons_of_mem _ hp)
    calc (runSetters c (step :: rest) h s).2
        = (runSetters c rest (setValue c step.1 h step.2 s).1
            (setValue c step.1 h step.2 s).2).2 := rfl
      _ = (setValue c step.1 h step.2 s).2 := ih hrest _ _
      _ = s := setValue_store_noWindow c step.1 h step.2 s hstep

/-! Consequences of a successful availability probe. -/

theorem persistent_true_setOk (b : Behavior) (s : StoreState)
    (hp : (computePersistent b s).1 = true) : b.setFails = false := by
  rw [computePersistent_fst] at hp
  obtain ⟨w, sf, rf⟩ := b
  cases sf
  · rfl
  · simp at hp

theorem computePersistent_true_data_testKey (b : Behavior) (s : StoreState)
    (hp : (computePersistent b s).1 = true) :
    ((computePersistent b s).2).data testKey = none := by
  obtain ⟨w, sf, rf⟩ := b
  cases w <;> cases sf <;> cases rf <;>
    simp_all [computePersistent, isLocalStorageAvailable, doSet, doRemove]

/-! Read outcomes of a mount. -/

theorem useLocalStorageState_state_read (c : Codec T) (b : Behavior)
    (key : String) (init : Fallback T) (s : StoreState) (v : T) (str : String)
    (hp : (computePersistent b s).1 = true) (hk : key ≠ testKey)
    (hd : s.data key = some str) (hv : c.decode str = some v) :
    (useLocalStorageState c b key init s).hook.state = v := by
  rw [useLocalStorageState_state_eq, hp]
  have hd2 : ((computePersistent b s).2).data key = some str := by
    rw [computePersistent_data_ne b s key hk]
    exact hd
  simp [getStoredValue, doGet, hd2, hv]

theorem useLocalStorageState_state_absent (c : Codec T) (b : Behavior)
    (key : String) (init : Fallback T) (s : StoreState)
    (hd : s.data key = none) :
    (useLocalStorageState c b key init s).hook.state = resolveFallback init := by
  cases hp : (computePersistent b s).1
  · exact useLocalStorageState_state_nonpersistent c b key init s hp
  · rw [useLocalStorageState_state_eq, hp]
    have hd2 : ((computePersistent b s).2).data key = none := by
      by_cases hk : key = testKey
      · rw [hk]
        exact computePersistent_true_data_testKey b s hp
      · rw [computePersistent_data_ne b s key hk]
        exact hd
    simp [getStoredValue, doGet, hd2]

theorem useLocalStorageState_state_badDecode (c : Codec T) (b : Behavior)
    (key : String) (init : Fallback T) (s : StoreState)
    (hd : ∀ str, c.decode str = none) :
    (useLocalStorageState c b key init s).hook.state = resolveFallback init := by
  cases hp : (computePersistent b s).1
  · exact useLocalStorageState_state_nonpersistent c b key init s hp
  · rw [useLocalStorageState_state_eq, hp]
    rcases hd2 : ((computePersistent b s).2).data key with _ | item
    · simp [getStoredValue, doGet, hd2]
    · simp [getStoredValue, doGet, hd2, hd item]

/-! Write outcomes. -/

theorem setValue_write (c : Codec T) (b : Behavior) (h : Hook T)
    (a : SetStateAction T) (s : StoreState) (str : String)
    (hp : (computePersistent b s).1 = true)
    (he : c.encode (applyAction a h.state) = some str) :
    ((setValue c b h a s).2).data h.key = some str := by
  have hset : b.setFails = false := persistent_true_setOk b s hp
  rw [setValue_store_eq, hp]
  exact runWriteEffect_true_encode c b h.key _ _ str hset he

theorem useLocalStorageState_writeback (c : Codec T) (b : Behavior)
    (key : String) (init : Fallback T) (s : StoreState) (str : String)
    (hp : (computePersistent b s).1 = true)
    (he : c.encode ((useLocalStorageState c b key init s).hook.state) = some str) :
    ((useLocalStorageState c b key init s).store).data key = some str := by
  have hset : b.setFails = false := persistent_true_setOk b s hp
  rw [useLocalStorageState_state_eq, hp] at he
  rw [useLocalStorageState_store_eq, hp]
  exact runWriteEffect_true_encode c b key _ _ str hset he

theorem runSetters_persistent_false (c : Codec T)
    (steps : List (Behavior × SetStateAction T)) :
    (∀ p ∈ steps, (p.1.hasWindow && (!p.1.setFails && !p.1.removeFails)) = false) →
    ∀ (h : Hook T) (s : StoreState), h.persistent = false →
      ((runSetters c steps h s).1).persistent = false := by
  induction steps with
  | nil => intro _ h s hh; exact hh
  | cons step rest ih =>
    intro hb h s hh
    have hstep : (computePersistent step.1 s).1 = false := by
      rw [computePersistent_fst]
      exact hb step (List.mem_cons_self _ _)
    exact ih (fun p hp => hb p (List.mem_cons_of_mem _ hp)) _ _ hstep

/-! Further concrete stores for witnesses. -/

/-- A store holding undecodable text under the consumer key `"k"`. -/
def garbageStore : StoreState :=
  { data := fun x => if x = "k" then some "garbage" else none, trace := [] }

/-- A store holding undecodable text under the probe key `"__test__"`. -/
def garbageProbeStore : StoreState :=
  { data := fun x => if x = testKey then some "garbage" else none, trace := [] }

/-- A store holding the encoding of `5` under the consumer key `"k"`. -/
def storeWith5 : StoreState :=
  { data := fun x => if x = "k" then some "5" else none, trace := [] }

/-! Claim theorems. -/

/-- C1 counterexample: the claim says every store mutation of a binding with
identifier `"k"` targets only the slot `"k"`, every other slot being
unchanged.  But constructing the binding runs the availability probe, which
clobbers the distinct slot `"__test__"`: an entry `"old"` stored there is
gone after the mount. -/
theorem c1_counterexample :
    testKey ≠ "k" ∧
    probeSlotStore.data testKey = some "old" ∧
    (useLocalStorageState natCodec bOK "k" (Fallback.literal 0)
        probeSlotStore).store.data testKey = none := by decide

/-- C1 (corrected): a binding with identifier `key`, across its construction
and any sequence of setter invocations, leaves the store entry at every slot
other than `key` and the probe key `"__test__"` unchanged, and every store
operation it attempts targets `key` or `"__test__"`. -/
theorem c1_frame_amended (c : Codec T) (b : Behavior) (key : String)
    (init : Fallback T) (s : StoreState)
    (steps : List (Behavior × SetStateAction T)) (x : String)
    (hk : x ≠ key) (ht : x ≠ testKey) :
    ((runSetters c steps (useLocalStorageState c b key init s).hook
        (useLocalStorageState c b key init s).store).2).data x = s.data x ∧
    ∀ op ∈ ((runSetters c steps (useLocalStorageState c b key init s).hook
        (useLocalStorageState c b key init s).store).2).trace,
      op ∈ s.trace ∨ op.opKey = key ∨ op.opKey = testKey := by
  constructor
  · rw [runSetters_data_ne c steps x ht _ _ hk]
    exact useLocalStorageState_data_ne c b key init s x hk ht
  · intro op hop
    rcases runSetters_trace c steps op _ _ hop with h1 | h1 | h1
    · exact useLocalStorageState_trace c b key init s op h1
    · exact Or.inr (Or.inl h1)
    · exact Or.inr (Or.inr h1)

/-- C1 witness: with a working store, mounting at `"k"` and setting once
leaves the unrelated slot `"other"` untouched. -/
theorem c1_witness :
    "other" ≠ "k" ∧ "other" ≠ testKey ∧
    ((runSetters natCodec [(bOK, SetStateAction.value 3)]
        (useLocalStorageState natCodec bOK "k" (Fallback.literal 0) emptyStore).hook
        (useLocalStorageState natCodec bOK "k" (Fallback.literal 0) emptyStore).store).2).data "other"
      = emptyStore.data "other" :=
  ⟨by decide, by decide,
    (c1_frame_amended natCodec bOK "k" (Fallback.literal 0) emptyStore
      [(bOK, SetStateAction.value 3)] "other" (by decide) (by decide)).1⟩

/-- C2 counterexample: the claim says isPersistent is fixed at construction.
But the hook body recomputes it on every render: a binding constructed with a
working store (isPersistent = true) reports isPersistent = false right after
a setter invocation performed once `setItem` has started throwing. -/
theorem c2_counterexample :
    (useLocalStorageState natCodec bOK "k" (Fallback.literal 0)
        emptyStore).hook.persistent = true ∧
    (setValue natCodec bSetFail
        (useLocalStorageState natCodec bOK "k" (Fallback.literal 0) emptyStore).hook
        (SetStateAction.value 1)
        (useLocalStorageState natCodec bOK "k" (Fallback.literal 0) emptyStore).store).1.persistent
      = false := by decide

/-- C2 (corrected): isPersistent is re-evaluated at every render, so it
equals the construction-time value only as long as the environment keeps the
same probe outcome; in particular, for any sequence of setter invocations
under the construction-time environment it is unchanged. -/
theorem c2_persistent_amended (c : Codec T) (b : Behavior) (key : String)
    (init : Fallback T) (s : StoreState)
    (steps : List (Behavior × SetStateAction T)) (hb : ∀ p ∈ steps, p.1 = b) :
    ((runSetters c steps (useLocalStorageState c b key init s).hook
        (useLocalStorageState c b key init s).store).1).persistent
      = (useLocalStorageState c b key init s).hook.persistent := by
  apply runSetters_persistent_const c b steps hb
  rw [useLocalStorageState_persistent, computePersistent_fst]

/-- C2 witness: two setter invocations under the unchanged working
environment leave isPersistent at its construction value. -/
theorem c2_witness :
    ((runSetters natCodec [(bOK, SetStateAction.value 1), (bOK, SetStateAction.value 2)]
        (useLocalStorageState natCodec bOK "k" (Fallback.literal 0) emptyStore).hook
        (useLocalStorageState natCodec bOK "k" (Fallback.literal 0) emptyStore).store).1).persistent
      = (useLocalStorageState natCodec bOK "k" (Fallback.literal 0) emptyStore).hook.persistent :=
  c2_persistent_amended natCodec bOK "k" (Fallback.literal 0) emptyStore
    [(bOK, SetStateAction.value 1), (bOK, SetStateAction.value 2)]
    (by
      intro p hp
      rcases List.mem_cons.mp hp with h | h
      · rw [h]
      · rw [List.mem_singleton.mp h])

/-- C3 counterexample: the claim says a binding whose flag is false never
attempts a store access, at construction included.  But when the store is
present and failing (rather than absent), the flag is false while the
construction trace already contains the probe's attempted `setItem`. -/
theorem c3_counterexample :
    (useLocalStorageState natCodec bSetFail "k" (Fallback.literal 0)
        emptyStore).hook.persistent = false ∧
    StoreOp.set testKey "1" ∈
      (useLocalStorageState natCodec bSetFail "k" (Fallback.literal 0)
        emptyStore).store.trace := by decide

/-- C3 (corrected): while the probe keeps failing, isPersistent is false at
construction and stays false, each setter invocation still updates the
in-memory value, no slot other than the probe key `"__test__"` is ever
changed, and the only store operations attempted are probe operations on
`"__test__"`; when moreover the execution context has no `window` at all,
the store is never touched in any way. -/
theorem c3_nonpersistent_amended (c : Codec T) (b : Behavior) (key : String)
    (init : Fallback T) (s : StoreState)
    (steps : List (Behavior × SetStateAction T))
    (hp : (computePersistent b s).1 = false)
    (hs : ∀ p ∈ steps, (p.1.hasWindow && (!p.1.setFails && !p.1.removeFails)) = false) :
    (useLocalStorageState c b key init s).hook.persistent = false ∧
    ((runSetters c steps (useLocalStorageState c b key init s).hook
        (useLocalStorageState c b key init s).store).1).state
      = steps.foldl (fun st step => applyAction step.2 st) (resolveFallback init) ∧
    ((runSetters c steps (useLocalStorageState c b key init s).hook
        (useLocalStorageState c b key init s).store).1).persistent = false ∧
    (∀ x, x ≠ testKey →
      ((runSetters c steps (useLocalStorageState c b key init s).hook
          (useLocalStorageState c b key init s).store).2).data x = s.data x) ∧
    (∀ op ∈ ((runSetters c steps (useLocalStorageState c b key init s).hook
        (useLocalStorageState c b key init s).store).2).trace,
      op ∈ s.trace ∨ op.opKey = testKey) ∧
    (b.hasWindow = false → (∀ p ∈ steps, p.1.hasWindow = false) →
      (runSetters c steps (useLocalStorageState c b key init s).hook
        (useLocalStorageState c b key init s).store).2 = s) := by
  have hflag : (useLocalStorageState c b key init s).hook.persistent = false := by
    rw [useLocalStorageState_persistent]
    exact hp
  refine ⟨hflag, ?_, ?_, ?_, ?_, ?_⟩
  · rw [runSetters_state, useLocalStorageState_state_nonpersistent c b key init s hp]
  · exact runSetters_persistent_false c steps hs _ _ hflag
  · intro x ht
    rw [runSetters_nonpersistent_data c steps x ht hs _ _]
    exact useLocalStorageState_data_nonpersistent c b key init s hp x ht
  · intro op hop
    rcases runSetters_nonpersistent_trace c steps op hs _ _ hop with h1 | h1
    · exact useLocalStorageState_trace_nonpersistent c b key init s hp op h1
    · exact Or.inr h1
  · intro hw hws
    rw [runSetters_noWindow_store c steps hws _ _]
    exact useLocalStorageState_store_noWindow c b key init s hw

/-- C3 witness: a server-side binding (no window): flag false, a setter still
updates the in-memory value to 9, and the store is left exactly as it was. -/
theorem c3_witness :
    (useLocalStorageState natCodec bNoWin "k" (Fallback.literal 7)
        emptyStore).hook.persistent = false ∧
    ((runSetters natCodec [(bNoWin, SetStateAction.value 9)]
        (useLocalStorageState natCodec bNoWin "k" (Fallback.literal 7) emptyStore).hook
        (useLocalStorageState natCodec bNoWin "k" (Fallback.literal 7) emptyStore).store).1).state = 9 ∧
    (runSetters natCodec [(bNoWin, SetStateAction.value 9)]
        (useLocalStorageState natCodec bNoWin "k" (Fallback.literal 7) emptyStore).hook
        (useLocalStorageState natCodec bNoWin "k" (Fallback.literal 7) emptyStore).store).2 = emptyStore := by
  have h := c3_nonpersistent_amended natCodec bNoWin "k" (Fallback.literal 7)
    emptyStore [(bNoWin, SetStateAction.value 9)] (by decide)
    (by
      intro p hp
      rw [List.mem_singleton.mp hp]
      decide)
  exact ⟨h.1, h.2.1, h.2.2.2.2.2 rfl (by
    intro p hp
    rw [List.mem_singleton.mp hp]
    decide)⟩

/-- C4 counterexample: the claim quantifies over every identifier, but for
the identifier `"__test__"` the round-trip fails: the setter writes the
losslessly-encoded value 1, yet the new binding's availability probe deletes
that very slot before reading it, so the new binding returns the fallback 0
instead of 1 — even though the flag is true and the codec round-trips. -/
theorem c4_counterexample :
    natCodec.encode 1 = some "1" ∧ natCodec.decode "1" = some 1 ∧
    (computePersistent bOK emptyStore).1 = true ∧
    (useLocalStorageState natCodec bOK testKey (Fallback.literal 0)
        (setValue natCodec bOK { key := testKey, persistent := true, state := 0 }
          (SetStateAction.value 1) emptyStore).2).hook.state = 0 ∧
    (0 : Nat) ≠ 1 := by decide

/-- C4 (corrected): for every identifier other than the probe key
`"__test__"`, a value whose encoding decodes back to itself, written through
the setter under a successfully probing environment, is read back as the
currentValue of a freshly created binding for the same identifier (whatever
fallback the new binding carries). -/
theorem c4_roundtrip_amended (c : Codec T) (b : Behavior) (h : Hook T)
    (init2 : Fallback T) (s : StoreState) (v : T) (str : String)
    (hk : h.key ≠ testKey)
    (hp : (computePersistent b s).1 = true)
    (he : c.encode v = some str) (hd : c.decode str = some v) :
    (useLocalStorageState c b h.key init2
        (setValue c b h (SetStateAction.value v) s).2).hook.state = v := by
  have hwrite : ((setValue c b h (SetStateAction.value v) s).2).data h.key = some str :=
    setValue_write c b h (SetStateAction.value v) s str hp he
  have hp2 : (computePersistent b (setValue c b h (SetStateAction.value v) s).2).1 = true := by
    rw [← computePersistent_fst_indep b s _]
    exact hp
  exact useLocalStorageState_state_read c b h.key init2 _ v str hp2 hk hwrite hd

/-- C4 witness: setting 5 at `"k"` and remounting at `"k"` reads back 5. -/
theorem c4_witness :
    (useLocalStorageState natCodec bOK "k" (Fallback.literal 0)
        (setValue natCodec bOK { key := "k", persistent := true, state := 0 }
          (SetStateAction.value 5) emptyStore).2).hook.state = 5 :=
  c4_roundtrip_amended natCodec bOK { key := "k", persistent := true, state := 0 }
    (Fallback.literal 0) emptyStore 5 "5" (by decide) (by decide) (by decide) (by decide)

/-- C5 counterexample: the claim promises a diagnostic whenever the stored
entry is present but undecodable.  For the identifier `"__test__"` the
undecodable entry is deleted by the availability probe before the read, so
construction falls back silently: no diagnostic is emitted. -/
theorem c5_counterexample :
    garbageProbeStore.data testKey = some "garbage" ∧
    natCodec.decode "garbage" = none ∧
    (useLocalStorageState natCodec bOK testKey (Fallback.literal 3)
        garbageProbeStore).hook.state = 3 ∧
    (useLocalStorageState natCodec bOK testKey (Fallback.literal 3)
        garbageProbeStore).diag = false := by decide

/-- C5 (corrected): for every identifier other than the probe key
`"__test__"` whose entry is present but fails to decode, construction under a
successfully probing environment returns the resolved fallback as
currentValue and emits the non-fatal diagnostic (and, the embedding being
total, no exception reaches the caller). -/
theorem c5_decode_fail_amended (c : Codec T) (b : Behavior) (key : String)
    (init : Fallback T) (s : StoreState) (item : String)
    (hk : key ≠ testKey) (hp : (computePersistent b s).1 = true)
    (hd : s.data key = some item) (hv : c.decode item = none) :
    (useLocalStorageState c b key init s).hook.state = resolveFallback init ∧
    (useLocalStorageState c b key init s).diag = true := by
  have hd2 : ((computePersistent b s).2).data key = some item := by
    rw [computePersistent_data_ne b s key hk]
    exact hd
  constructor
  · rw [useLocalStorageState_state_eq, hp]
    simp [getStoredValue, doGet, hd2, hv]
  · rw [useLocalStorageState_diag_eq, hp]
    simp [getStoredValue, doGet, hd2, hv]

/-- C5 witness: undecodable text stored at `"k"` yields the fallback 3 and
fires the diagnostic. -/
theorem c5_witness :
    (useLocalStorageState natCodec bOK "k" (Fallback.literal 3)
        garbageStore).hook.state = 3 ∧
    (useLocalStorageState natCodec bOK "k" (Fallback.literal 3)
        garbageStore).diag = true :=
  c5_decode_fail_amended natCodec bOK "k" (Fallback.literal 3) garbageStore
    "garbage" (by decide) (by decide) (by decide) (by decide)

/-- C6: every failure mode is recovered locally.  (a) A failed probe (store
absent or failing) makes construction return the fallback with a false flag;
(b) a decode failure on read makes construction return the fallback; (c) an
encode failure on update leaves every slot but the probe key unchanged while
the in-memory value is still updated; (d) a write failure on update leaves
the whole store data unchanged while the in-memory value is still updated.
All four operations are total functions of the embedding: no failure is
surfaced as a thrown error or failed return. -/
theorem c6_local_recovery (c : Codec T) (b : Behavior) (key : String)
    (init : Fallback T) (s : StoreState) (h : Hook T) (a : SetStateAction T) :
    ((computePersistent b s).1 = false →
      (useLocalStorageState c b key init s).hook.state = resolveFallback init ∧
      (useLocalStorageState c b key init s).hook.persistent = false) ∧
    ((∀ str, c.decode str = none) →
      (useLocalStorageState c b key init s).hook.state = resolveFallback init) ∧
    ((∀ t, c.encode t = none) →
      ((setValue c b h a s).1).state = applyAction a h.state ∧
      ∀ x, x ≠ testKey → ((setValue c b h a s).2).data x = s.data x) ∧
    (b.setFails = true →
      ((setValue c b h a s).1).state = applyAction a h.state ∧
      ∀ x, ((setValue c b h a s).2).data x = s.data x) := by
  refine ⟨fun hp => ⟨useLocalStorageState_state_nonpersistent c b key init s hp, ?_⟩,
    fun hd => useLocalStorageState_state_badDecode c b key init s hd,
    fun he => ⟨setValue_state c b h a s,
      fun x ht => setValue_store_badEncode c b h a s he x ht⟩,
    fun hsf => ⟨setValue_state c b h a s,
      fun x => congrFun (setValue_store_setFails_data c b h a s hsf) x⟩⟩
  rw [useLocalStorageState_persistent]
  exact hp

/-- C6 witness: the three failure modes at concrete inputs: an
always-failing decoder still mounts to the fallback 7; an always-failing
encoder still updates the in-memory value to 8; a failing `setItem` drops
the write, leaving the slot `"k"` empty. -/
theorem c6_witness :
    (useLocalStorageState natCodecBadDecode bOK "k" (Fallback.literal 7)
        emptyStore).hook.state = 7 ∧
    ((setValue natCodecBadEncode bOK { key := "k", persistent := true, state := 7 }
        (SetStateAction.value 8) emptyStore).1).state = 8 ∧
    ((setValue natCodec bSetFail { key := "k", persistent := true, state := 7 }
        (SetStateAction.value 8) emptyStore).2).data "k" = none :=
  ⟨(c6_local_recovery natCodecBadDecode bOK "k" (Fallback.literal 7) emptyStore
      { key := "k", persistent := true, state := 0 } (SetStateAction.value 0)).2.1
    (fun _ => rfl),
   ((c6_local_recovery natCodecBadEncode bOK "k" (Fallback.literal 7) emptyStore
      { key := "k", persistent := true, state := 7 } (SetStateAction.value 8)).2.2.1
    (fun _ => rfl)).1,
   ((c6_local_recovery natCodec bSetFail "k" (Fallback.literal 7) emptyStore
      { key := "k", persistent := true, state := 7 } (SetStateAction.value 8)).2.2.2
    rfl).2 "k"⟩

/-- C7: a setter invocation with a pure updater computes the new value from
the previous in-memory value, replaces the in-memory value, and — the probe
succeeding and the encoding being defined — leaves the store entry at the
binding's key holding an encoding that decodes back to the new value. -/
theorem c7_functional_update (c : Codec T) (b : Behavior) (h : Hook T)
    (f : T → T) (s : StoreState) (str : String)
    (hp : (computePersistent b s).1 = true)
    (he : c.encode (f h.state) = some str)
    (hd : c.decode str = some (f h.state)) :
    ((setValue c b h (SetStateAction.updater f) s).1).state = f h.state ∧
    Option.bind (((setValue c b h (SetStateAction.updater f) s).2).data h.key)
      c.decode = some (f h.state) := by
  refine ⟨setValue_state c b h (SetStateAction.updater f) s, ?_⟩
  rw [setValue_write c b h (SetStateAction.updater f) s str hp he]
  rw [Option.some_bind]
  exact hd

/-- C7 witness: on a binding currently holding 5, `setter(prev -> prev + 1)`
yields currentValue 6 and a store entry that decodes to 6. -/
theorem c7_witness :
    ((setValue natCodec bOK { key := "k", persistent := true, state := 5 }
        (SetStateAction.updater (fun p => p + 1)) emptyStore).1).state = 6 ∧
    Option.bind (((setValue natCodec bOK { key := "k", persistent := true, state := 5 }
        (SetStateAction.updater (fun p => p + 1)) emptyStore).2).data "k")
      natCodec.decode = some 6 :=
  c7_functional_update natCodec bOK { key := "k", persistent := true, state := 5 }
    (fun p => p + 1) emptyStore "6" (by decide) (by decide) (by decide)

/-- C8: an identifier whose slot holds nothing mounts to the resolved
fallback (literal or producer-made); and the fallback is demanded only when
no stored value is found: whenever a decodable entry is present (away from
the probe key, under a successful probe), the mounted value is the decoded
entry, for every fallback alike. -/
theorem c8_fallback (c : Codec T) (b : Behavior) (key : String)
    (init : Fallback T) (s : StoreState) :
    (s.data key = none →
      (useLocalStorageState c b key init s).hook.state = resolveFallback init) ∧
    (∀ item v, key ≠ testKey → (computePersistent b s).1 = true →
      s.data key = some item → c.decode item = some v →
      (useLocalStorageState c b key init s).hook.state = v) :=
  ⟨fun hd => useLocalStorageState_state_absent c b key init s hd,
   fun item v hk hp hd hv =>
     useLocalStorageState_state_read c b key init s v item hp hk hd hv⟩

/-- C8 witness: a never-written slot mounts to the producer's 42; a slot
holding the encoding of 5 mounts to 5 regardless of the literal fallback 0. -/
theorem c8_witness :
    (useLocalStorageState natCodec bOK "k" (Fallback.producer (fun _ => 42))
        emptyStore).hook.state = 42 ∧
    (useLocalStorageState natCodec bOK "k" (Fallback.literal 0)
        storeWith5).hook.state = 5 :=
  ⟨(c8_fallback natCodec bOK "k" (Fallback.producer (fun _ => 42)) emptyStore).1 rfl,
   (c8_fallback natCodec bOK "k" (Fallback.literal 0) storeWith5).2 "5" 5
     (by decide) (by decide) (by decide) (by decide)⟩

/-- C9: the accessor produced by `createLocalStorageStateHook key init`,
invoked with no arguments in some render environment, returns exactly what a
direct `useLocalStorageState key init` call returns in that environment:
same currentValue, same isPersistent, same resulting store. -/
theorem c9_created_hook_equiv (c : Codec T) (key : String) (init : Fallback T)
    (b : Behavior) (s : StoreState) :
    createLocalStorageStateHook c key init () b s = useLocalStorageState c b key init s := rfl

/-- C10: when the probe succeeds, the mount's effect writes the current value
back: right after construction the store entry at the identifier holds the
encoding of currentValue, even though no setter was ever invoked and the
entry was previously absent or undecodable. -/
theorem c10_writeback_on_mount (c : Codec T) (b : Behavior) (key : String)
    (init : Fallback T) (s : StoreState) (str : String)
    (hp : (computePersistent b s).1 = true)
    (he : c.encode ((useLocalStorageState c b key init s).hook.state) = some str) :
    ((useLocalStorageState c b key init s).store).data key = some str :=
  useLocalStorageState_writeback c b key init s str hp he

/-- C10 witness: mounting over an undecodable entry at `"k"` ends with the
slot holding the encoding `"3"` of the fallback 3, with no setter invoked. -/
theorem c10_witness :
    ((useLocalStorageState natCodec bOK "k" (Fallback.literal 3)
        garbageStore).store).data "k" = some "3" :=
  c10_writeback_on_mount natCodec bOK "k" (Fallback.literal 3) garbageStore "3"
    (by decide) (by decide)
